import Mathlib

/-!
Shallow embedding of the redpanda bootstrap CLI
(`src/go/rpk/pkg/cli/cmd/config.go`) and of the raft metrics probe
(`src/v/raft/probe.cc`), together with theorems settling the spec claims
about them.
-/

set_option autoImplicit false

namespace Rpk

/-- An IP address as handled by the Go code: we only ever need its string
form (`net.IP.String()`), so an address is modelled by that string. -/
structure IP where
  repr : String
deriving DecidableEq

/-- One element of the slice returned by `net.InterfaceAddrs()`.  The Go
code type-asserts each element to `*net.IPNet` and asks whether its IP is
a loopback address; an address is therefore either an IPNet (carrying its
IP and its loopback flag) or some other `net.Addr` implementation. -/
inductive InterfaceAddr where
  | ipNet (ip : IP) (loopback : Bool)
  | otherAddr
deriving DecidableEq

/-- Outcome of `ownIP`: a Go function returning `(net.IP, error)` either
returns an IP, returns an error, or panics (here: the out-of-range slice
index `filtered[0]` on an empty slice). -/
inductive OwnIPResult where
  | ok (ip : IP)
  | err (msg : String)
  | panicked
deriving DecidableEq

/-- Embedding of `ownIP` (config.go lines 168-192).  It filters the
interface addresses down to the non-loopback IPNet ones, then branches on
the length of the filtered slice exactly as the Go code does: `> 1`
errors, `== 1` errors (with the "couldn't find any" message), and the
remaining case (length 0) evaluates `filtered[0]`, which on an empty
slice is a Go runtime panic. -/
def ownIP (addrs : List InterfaceAddr) : OwnIPResult :=
  let filtered := addrs.filterMap fun a =>
    match a with
    | InterfaceAddr.ipNet ip loopback => if loopback then none else some ip
    | InterfaceAddr.otherAddr => none
  if filtered.length > 1 then
    OwnIPResult.err
      "found multiple non-loopback IPs for the current node. Try setting --self."
  else if filtered.length = 1 then
    OwnIPResult.err "couldn't find any non-loopback IPs for the current node."
  else
    match filtered with
    | [] => OwnIPResult.panicked
    | ip :: _ => OwnIPResult.ok ip

/-- Embedding of `parseIPs` (config.go lines 156-166).  `net.ParseIP` is
Go standard-library code, external to this repository, so it is passed in
as a function `pi : String → Option IP`; the loop stops at the first
element that fails to parse, with the same error text as the source. -/
def parseIPs (pi : String → Option IP) : List String → Except String (List IP)
  | [] => Except.ok []
  | i :: rest =>
    match pi i with
    | none => Except.error (i ++ " is not a valid IP.")
    | some p =>
      match parseIPs pi rest with
      | Except.error e => Except.error e
      | Except.ok ps => Except.ok (p :: ps)

/-- `config.SocketAddress`: the fields the bootstrap code touches are the
address string and the port. -/
structure SocketAddress where
  address : String
  port : Int
deriving DecidableEq

/-- `config.SeedServer`: positional id plus host socket address. -/
structure SeedServer where
  id : Int
  host : SocketAddress
deriving DecidableEq

/-- Modelled from the spec: the `config.Config.Redpanda` record lives in
`vectorized/pkg/config`, which is not part of the source sample; the spec
describes the node id, the node network address and the seed-server list.
The fields bootstrap assigns (config.go lines 107-123) are modelled
explicitly and every other field of the record is abstracted into
`rest`. -/
structure RedpandaConfig where
  id : Int
  rpcServer : SocketAddress
  kafkaApi : SocketAddress
  adminApi : SocketAddress
  seedServers : List SeedServer
  rest : String
deriving DecidableEq

/-- Modelled from the spec: the top-level `config.Config` record, with the
`Redpanda` section modelled explicitly and every other field abstracted
into `rest`. -/
structure Config where
  redpanda : RedpandaConfig
  rest : String
deriving DecidableEq

/-- Seed-server list built by the `for i, ip := range ips` loop of
bootstrap (config.go lines 112-122): entry `i` gets `Id = i` and
`Host = {ip.String(), defaultRpcPort}`. -/
def buildSeeds (defaultRpcPort : Int) : Nat → List IP → List SeedServer
  | _, [] => []
  | i, ip :: rest =>
    { id := Int.ofNat i, host := { address := ip.repr, port := defaultRpcPort } }
      :: buildSeeds defaultRpcPort (i + 1) rest

/-- The field assignments bootstrap performs on the loaded configuration
(config.go lines 107-123): the id, the three address fields (all set to
the chosen IP's string form, ports untouched) and the seed-server list
(first reset to `[]`, then set to the built list — net effect is the
built list). -/
def applyBootstrap (conf : Config) (id : Int) (ownIp : IP) (parsed : List IP)
    (defaultRpcPort : Int) : Config :=
  { conf with
    redpanda := { conf.redpanda with
      id := id
      rpcServer := { conf.redpanda.rpcServer with address := ownIp.repr }
      kafkaApi := { conf.redpanda.kafkaApi with address := ownIp.repr }
      adminApi := { conf.redpanda.adminApi with address := ownIp.repr }
      seedServers := buildSeeds defaultRpcPort 0 parsed } }

/-- Outcome of one run of the bootstrap `RunE` closure. -/
inductive RunResult where
  | ok
  | err (msg : String)
  | panicked
deriving DecidableEq

/-- Resolution of the node's own address (config.go lines 95-106): when
`--self` was supplied (non-empty) its value is parsed with `net.ParseIP`
and a parse failure is a validation error; otherwise `ownIP` inspects the
machine's interface addresses. -/
def resolveSelf (pi : String → Option IP) (addrs : List InterfaceAddr)
    (self : String) : OwnIPResult :=
  if self ≠ "" then
    match pi self with
    | none => OwnIPResult.err (self ++ " is not a valid IP.")
    | some p => OwnIPResult.ok p
  else ownIP addrs

/-- Embedding of the bootstrap `RunE` closure (config.go lines 80-125).
External collaborators are inputs: `pi` stands for `net.ParseIP`,
`defaultRpcPort` for `config.DefaultConfig().Redpanda.RPCServer.Port`,
`addrs` for `net.InterfaceAddrs()`, and `ro` for the outcome of
`config.ReadOrGenerate`.  The first component of the result is the list
of configurations passed to `config.WriteConfig` during the run (empty on
every early return), the second the run's outcome. -/
def bootstrapRun (pi : String → Option IP) (defaultRpcPort : Int)
    (addrs : List InterfaceAddr) (ro : Except String Config)
    (ips : List String) (self : String) (id : Int) : List Config × RunResult :=
  if ips.length = 0 ∧ self = "" then
    ([], RunResult.err "either --ips or --self must be passed.")
  else
    match ro with
    | Except.error e => ([], RunResult.err e)
    | Except.ok conf =>
      match parseIPs pi ips with
      | Except.error e => ([], RunResult.err e)
      | Except.ok parsed =>
        match resolveSelf pi addrs self with
        | OwnIPResult.err e => ([], RunResult.err e)
        | OwnIPResult.panicked => ([], RunResult.panicked)
        | OwnIPResult.ok ownIp =>
          ([applyBootstrap conf id ownIp parsed defaultRpcPort], RunResult.ok)

/-- Flags of one invocation of `rpk config bootstrap`; `none` means the
flag was not supplied on the command line. -/
structure Invocation where
  ips : Option (List String)
  self : Option String
  id : Option Int
deriving DecidableEq

/-- Embedding of the whole command.  Modelled from the spec for the flag
layer: `cobra.MarkFlagRequired(c.Flags(), "id")` (config.go line 152)
makes cobra — an external library — reject an invocation without `--id`
before `RunE` runs ("node id ... required"); the flag defaults are
`[]` for `--ips` and `""` for `--self` (config.go lines 127-145). -/
def bootstrapCommand (pi : String → Option IP) (defaultRpcPort : Int)
    (addrs : List InterfaceAddr) (ro : Except String Config)
    (inv : Invocation) : List Config × RunResult :=
  match inv.id with
  | none => ([], RunResult.err "required flag(s) \x22id\x22 not set")
  | some id =>
      bootstrapRun pi defaultRpcPort addrs ro (inv.ips.getD []) (inv.self.getD "") id

end Rpk

namespace Raft

/-- Group identity `model::ntp`: namespace, topic, partition. -/
structure NTP where
  ns : String
  topic : String
  partition : Int
deriving DecidableEq

/-- One `ss::metrics::label_instance`: a label name applied to a value. -/
structure LabelInstance where
  key : String
  value : String
deriving DecidableEq

/-- One counter registered by `probe::setup_metrics`: its metric name, its
description, and the label instances attached to it. -/
structure MetricDef where
  name : String
  description : String
  labels : List LabelInstance
deriving DecidableEq

/-- Embedding of `probe::create_metric_labels` (probe.cc lines 20-31):
three label instances — namespace, topic, partition — taken from the
group identity. -/
def create_metric_labels (ntp : NTP) : List LabelInstance :=
  [ { key := "namespace", value := ntp.ns },
    { key := "topic", value := ntp.topic },
    { key := "partition", value := toString ntp.partition } ]

/-- Embedding of `probe::setup_metrics` (probe.cc lines 33-107): the
thirteen counters added to the `raft` metric group, in source order, each
carrying the labels from `create_metric_labels`. -/
def setup_metrics (ntp : NTP) : List MetricDef :=
  let labels := create_metric_labels ntp
  [ { name := "received_vote_requests",
      description := "Number of vote requests received", labels := labels },
    { name := "received_append_requests",
      description := "Number of append requests received", labels := labels },
    { name := "sent_vote_requests",
      description := "Number of vote requests sent", labels := labels },
    { name := "replicate_ack_all_requests",
      description := "Number of replicate requests with quorum ack consistency",
      labels := labels },
    { name := "replicate_ack_leader_requests",
      description := "Number of replicate requests with leader ack consistency",
      labels := labels },
    { name := "replicate_ack_none_requests",
      description := "Number of replicate requests with no ack consistency",
      labels := labels },
    { name := "done_replicate_requests",
      description := "Number of finished replicate requests", labels := labels },
    { name := "log_flushes",
      description := "Number of log flushes", labels := labels },
    { name := "log_truncations",
      description := "Number of log truncations", labels := labels },
    { name := "leadership_changes",
      description := "Number of leadership changes", labels := labels },
    { name := "replicate_request_errors",
      description := "Number of failed replicate requests", labels := labels },
    { name := "heartbeat_requests_errors",
      description := "Number of failed heartbeat requests", labels := labels },
    { name := "recovery_requests_errors",
      description := "Number of failed recovery requests", labels := labels } ]

end Raft

/-! Helper lemmas shared by the claim theorems. -/

theorem buildSeeds_length (port : Int) (k : Nat) (ips : List Rpk.IP) :
    (Rpk.buildSeeds port k ips).length = ips.length := by
  induction ips generalizing k with
  | nil => rfl
  | cons ip rest ih => simp [Rpk.buildSeeds, ih]

theorem buildSeeds_get (port : Int) (k : Nat) (ips : List Rpk.IP) (i : Nat)
    (hi : i < (Rpk.buildSeeds port k ips).length) (hj : i < ips.length) :
    (Rpk.buildSeeds port k ips).get ⟨i, hi⟩
      = { id := Int.ofNat (k + i)
          host := { address := (ips.get ⟨i, hj⟩).repr, port := port } } := by
  induction ips generalizing k i with
  | nil => exact absurd hj (Nat.not_lt_zero i)
  | cons ip rest ih =>
    cases i with
    | zero => simp [Rpk.buildSeeds]
    | succ n =>
      have hi' : n < (Rpk.buildSeeds port (k + 1) rest).length := by
        simpa [Rpk.buildSeeds, buildSeeds_length] using Nat.lt_of_succ_lt_succ hi
      have hj' : n < rest.length := Nat.lt_of_succ_lt_succ hj
      have := ih (k + 1) n hi' hj'
      simp only [Rpk.buildSeeds, List.get_cons_succ]
      rw [this]
      have : k + 1 + n = k + (n + 1) := by omega
      simp [this]

/-- Every run of bootstrap either writes nothing or succeeds: the list of
configurations handed to `WriteConfig` is empty on every non-`ok`
outcome. -/
theorem bootstrapRun_shape (pi : String → Option Rpk.IP) (port : Int)
    (addrs : List Rpk.InterfaceAddr) (ro : Except String Rpk.Config)
    (ips : List String) (self : String) (id : Int) :
    (Rpk.bootstrapRun pi port addrs ro ips self id).1 = []
    ∨ (Rpk.bootstrapRun pi port addrs ro ips self id).2 = Rpk.RunResult.ok := by
  unfold Rpk.bootstrapRun
  split
  · exact Or.inl rfl
  · split
    · exact Or.inl rfl
    · split
      · exact Or.inl rfl
      · split
        · exact Or.inl rfl
        · exact Or.inl rfl
        · exact Or.inr rfl

/-- Inversion of a successful bootstrap run: the configuration was loaded,
every `--ips` element parsed, the node address resolved, and exactly the
updated configuration was written. -/
theorem bootstrapRun_ok_inv {pi : String → Option Rpk.IP} {port : Int}
    {addrs : List Rpk.InterfaceAddr} {ro : Except String Rpk.Config}
    {ips : List String} {self : String} {id : Int} {ws : List Rpk.Config}
    (h : Rpk.bootstrapRun pi port addrs ro ips self id = (ws, Rpk.RunResult.ok)) :
    ∃ conf parsed ownIp,
      ro = Except.ok conf
      ∧ Rpk.parseIPs pi ips = Except.ok parsed
      ∧ Rpk.resolveSelf pi addrs self = Rpk.OwnIPResult.ok ownIp
      ∧ ws = [Rpk.applyBootstrap conf id ownIp parsed port] := by
  unfold Rpk.bootstrapRun at h
  split at h
  · simp at h
  · split at h
    · simp at h
    · split at h
      · simp at h
      · split at h
        · simp at h
        · simp at h
        · simp only [Prod.mk.injEq] at h
          refine ⟨_, _, _, rfl, ?_, ?_, h.1.symm⟩ <;> assumption

/-- Forward computation of a successful bootstrap run. -/
theorem bootstrapRun_ok_fwd {pi : String → Option Rpk.IP} {port : Int}
    {addrs : List Rpk.InterfaceAddr} {ro : Except String Rpk.Config}
    {ips : List String} {self : String} {id : Int} {conf : Rpk.Config}
    {parsed : List Rpk.IP} {ownIp : Rpk.IP}
    (hne : ¬(ips.length = 0 ∧ self = ""))
    (hro : ro = Except.ok conf)
    (hparse : Rpk.parseIPs pi ips = Except.ok parsed)
    (hresolve : Rpk.resolveSelf pi addrs self = Rpk.OwnIPResult.ok ownIp) :
    Rpk.bootstrapRun pi port addrs ro ips self id
      = ([Rpk.applyBootstrap conf id ownIp parsed port], Rpk.RunResult.ok) := by
  unfold Rpk.bootstrapRun
  rw [if_neg hne, hro]
  simp only [hparse, hresolve]

/-! Concrete sample inputs used by the witness theorems. -/

/-- A concrete stand-in for `net.ParseIP`, defined on two dotted quads. -/
def samplePi (s : String) : Option Rpk.IP :=
  if s = "1.2.3.4" then some { repr := "1.2.3.4" }
  else if s = "5.6.7.8" then some { repr := "5.6.7.8" } else none

/-- A concrete loaded configuration, standing for the outcome of
`config.ReadOrGenerate`. -/
def sampleConf : Rpk.Config :=
  { redpanda :=
      { id := 0
        rpcServer := { address := "0.0.0.0", port := 33145 }
        kafkaApi := { address := "0.0.0.0", port := 9092 }
        adminApi := { address := "0.0.0.0", port := 9644 }
        seedServers := []
        rest := "redpanda-defaults" }
    rest := "file-defaults" }

/-! Claim theorems. -/

/-- C1: the spec says that with exactly one non-loopback interface address
`ownIP` returns that address, and that with zero or multiple non-loopback
addresses bootstrap fails with a validation error.  The code's own help
text states the same intent, but the source inverts the emptiness check:
with exactly one non-loopback address `ownIP` returns the error meant for
the empty case ("couldn't find any non-loopback IPs"), and only the
multiple-address case behaves as documented.  This theorem evaluates the
embedded `ownIP` at both failing and conforming inputs. -/
theorem ownIP_single_nonloopback_misbehaves :
    Rpk.ownIP [Rpk.InterfaceAddr.ipNet { repr := "192.168.1.2" } false]
      = Rpk.OwnIPResult.err "couldn't find any non-loopback IPs for the current node."
    ∧ Rpk.ownIP [Rpk.InterfaceAddr.ipNet { repr := "192.168.1.2" } false,
                 Rpk.InterfaceAddr.ipNet { repr := "10.0.0.7" } false]
      = Rpk.OwnIPResult.err
          "found multiple non-loopback IPs for the current node. Try setting --self." :=
  ⟨rfl, rfl⟩

/-- C2: the claim says `ownIP` is total and never indexes out of range.
In the source, when the filtered non-loopback list is empty neither guard
fires (`len > 1` and `len == 1` are both false), so `filtered[0]` is
evaluated on an empty slice — a Go runtime panic.  This theorem evaluates
the embedded `ownIP` on an empty interface list and on a list containing
only a loopback address and a non-IPNet address. -/
theorem ownIP_empty_filtered_panics :
    Rpk.ownIP [] = Rpk.OwnIPResult.panicked
    ∧ Rpk.ownIP [Rpk.InterfaceAddr.ipNet { repr := "127.0.0.1" } true,
                 Rpk.InterfaceAddr.otherAddr]
      = Rpk.OwnIPResult.panicked :=
  ⟨rfl, rfl⟩

/-- C3 counterexample: the claim says the probe registers a
sent-append-requests counter.  At a concrete group identity the full list
of registered counter names contains no such counter: the only
directional append counter is `received_append_requests`. -/
theorem no_sent_append_counter :
    (Raft.setup_metrics { ns := "kafka", topic := "topic-a", partition := 3 }).map
        Raft.MetricDef.name
      = ["received_vote_requests", "received_append_requests", "sent_vote_requests",
         "replicate_ack_all_requests", "replicate_ack_leader_requests",
         "replicate_ack_none_requests", "done_replicate_requests", "log_flushes",
         "log_truncations", "leadership_changes", "replicate_request_errors",
         "heartbeat_requests_errors", "recovery_requests_errors"]
    ∧ "sent_append_requests" ∉
        (Raft.setup_metrics { ns := "kafka", topic := "topic-a", partition := 3 }).map
          Raft.MetricDef.name := by
  exact ⟨rfl, by decide⟩

/-- C3 amended: for every group identity the probe registers a
received-vote-requests counter, a sent-vote-requests counter and a
received-append-requests counter, but no sent-append-requests counter:
traffic direction is distinguished only for vote messages, while append
traffic has a received counter only. -/
theorem vote_counters_directional_append_received_only (ntp : Raft.NTP) :
    "received_vote_requests" ∈ (Raft.setup_metrics ntp).map Raft.MetricDef.name
    ∧ "sent_vote_requests" ∈ (Raft.setup_metrics ntp).map Raft.MetricDef.name
    ∧ "received_append_requests" ∈ (Raft.setup_metrics ntp).map Raft.MetricDef.name
    ∧ "sent_append_requests" ∉ (Raft.setup_metrics ntp).map Raft.MetricDef.name := by
  refine ⟨?_, ?_, ?_, ?_⟩ <;> simp [Raft.setup_metrics]

/-- C3 amended witness: instantiation at a concrete group identity. -/
theorem vote_counters_directional_witness :
    "received_vote_requests"
        ∈ (Raft.setup_metrics { ns := "kafka", topic := "t", partition := 0 }).map
            Raft.MetricDef.name
    ∧ "sent_vote_requests"
        ∈ (Raft.setup_metrics { ns := "kafka", topic := "t", partition := 0 }).map
            Raft.MetricDef.name
    ∧ "received_append_requests"
        ∈ (Raft.setup_metrics { ns := "kafka", topic := "t", partition := 0 }).map
            Raft.MetricDef.name
    ∧ "sent_append_requests"
        ∉ (Raft.setup_metrics { ns := "kafka", topic := "t", partition := 0 }).map
            Raft.MetricDef.name :=
  vote_counters_directional_append_received_only { ns := "kafka", topic := "t", partition := 0 }

/-- C4: for every group identity, `setup_metrics` registers exactly the
thirteen counters of the external-interface contract — votes received,
votes sent, append requests received, one replicate counter per
acknowledgment policy (quorum = `ack_all`, leader-only = `ack_leader`,
none = `ack_none`), completed replicate requests, log flushes, log
truncations, leadership changes, and one failure counter each for
replicate, heartbeat and recovery requests — and every registered counter
carries exactly the three labels namespace, topic and partition taken
from that group identity. -/
theorem setup_metrics_names_and_labels (ntp : Raft.NTP) :
    (Raft.setup_metrics ntp).map Raft.MetricDef.name
      = ["received_vote_requests", "received_append_requests", "sent_vote_requests",
         "replicate_ack_all_requests", "replicate_ack_leader_requests",
         "replicate_ack_none_requests", "done_replicate_requests", "log_flushes",
         "log_truncations", "leadership_changes", "replicate_request_errors",
         "heartbeat_requests_errors", "recovery_requests_errors"]
    ∧ (Raft.setup_metrics ntp).map Raft.MetricDef.labels
      = List.replicate 13
          [{ key := "namespace", value := ntp.ns },
           { key := "topic", value := ntp.topic },
           { key := "partition", value := toString ntp.partition }] :=
  ⟨rfl, rfl⟩

/-- C4 witness: instantiation at a concrete group identity. -/
theorem setup_metrics_names_and_labels_witness :
    (Raft.setup_metrics { ns := "redpanda", topic := "events", partition := 7 }).map
        Raft.MetricDef.name
      = ["received_vote_requests", "received_append_requests", "sent_vote_requests",
         "replicate_ack_all_requests", "replicate_ack_leader_requests",
         "replicate_ack_none_requests", "done_replicate_requests", "log_flushes",
         "log_truncations", "leadership_changes", "replicate_request_errors",
         "heartbeat_requests_errors", "recovery_requests_errors"]
    ∧ (Raft.setup_metrics { ns := "redpanda", topic := "events", partition := 7 }).map
        Raft.MetricDef.labels
      = List.replicate 13
          [{ key := "namespace", value := "redpanda" },
           { key := "topic", value := "events" },
           { key := "partition", value := toString (7 : Int) }] :=
  setup_metrics_names_and_labels { ns := "redpanda", topic := "events", partition := 7 }

/-- C5: bootstrap is atomic with respect to configuration errors — on
every input on which the run returns an error, no configuration was
handed to `WriteConfig`: every error return in the source precedes the
single write at the end of the function. -/
theorem bootstrap_error_writes_nothing (pi : String → Option Rpk.IP) (port : Int)
    (addrs : List Rpk.InterfaceAddr) (ro : Except String Rpk.Config)
    (inv : Rpk.Invocation) (msg : String)
    (h : (Rpk.bootstrapCommand pi port addrs ro inv).2 = Rpk.RunResult.err msg) :
    (Rpk.bootstrapCommand pi port addrs ro inv).1 = [] := by
  cases hid : inv.id with
  | none => simp [Rpk.bootstrapCommand, hid]
  | some id =>
    simp only [Rpk.bootstrapCommand, hid] at h ⊢
    rcases bootstrapRun_shape pi port addrs ro (inv.ips.getD []) (inv.self.getD "") id
      with h1 | h2
    · exact h1
    · rw [h2] at h
      simp at h

/-- C5 witness: with neither `--ips` nor `--self`, the run errors and the
written-configurations list is empty. -/
theorem bootstrap_error_writes_nothing_witness :
    (Rpk.bootstrapCommand samplePi 33145 [] (Except.ok sampleConf)
        { ips := none, self := none, id := some 1 }).2
      = Rpk.RunResult.err "either --ips or --self must be passed."
    ∧ (Rpk.bootstrapCommand samplePi 33145 [] (Except.ok sampleConf)
        { ips := none, self := none, id := some 1 }).1 = [] :=
  ⟨rfl, bootstrap_error_writes_nothing samplePi 33145 [] (Except.ok sampleConf)
    { ips := none, self := none, id := some 1 } "either --ips or --self must be passed." rfl⟩

/-- C6: on every successful run whose `--ips` list parsed to `parsed`,
the written seed-server list has exactly as many entries as `parsed`, and
the `i`-th entry has `Id = i` and `Host` equal to the `i`-th parsed IP's
string form paired with the default RPC port. -/
theorem bootstrap_seed_list (pi : String → Option Rpk.IP) (port : Int)
    (addrs : List Rpk.InterfaceAddr) (ro : Except String Rpk.Config)
    (inv : Rpk.Invocation) (w : Rpk.Config) (parsed : List Rpk.IP)
    (hrun : Rpk.bootstrapCommand pi port addrs ro inv = ([w], Rpk.RunResult.ok))
    (hparse : Rpk.parseIPs pi (inv.ips.getD []) = Except.ok parsed) :
    w.redpanda.seedServers.length = parsed.length
    ∧ ∀ i (hi : i < w.redpanda.seedServers.length) (hj : i < parsed.length),
        (w.redpanda.seedServers.get ⟨i, hi⟩).id = Int.ofNat i
        ∧ (w.redpanda.seedServers.get ⟨i, hi⟩).host
            = { address := (parsed.get ⟨i, hj⟩).repr, port := port } := by
  cases hid : inv.id with
  | none => simp [Rpk.bootstrapCommand, hid] at hrun
  | some id =>
    simp only [Rpk.bootstrapCommand, hid] at hrun
    obtain ⟨conf, parsed', ownIp, hro, hparse', hres, hw⟩ := bootstrapRun_ok_inv hrun
    rw [hparse] at hparse'
    injection hparse' with hpp
    subst hpp
    injection hw with hw1 _
    subst hw1
    refine ⟨by simp [Rpk.applyBootstrap, buildSeeds_length], ?_⟩
    intro i hi hj
    have hi' : i < (Rpk.buildSeeds port 0 parsed).length := by
      simpa [Rpk.applyBootstrap] using hi
    have hg := buildSeeds_get port 0 parsed i hi' hj
    constructor
    · simpa [Rpk.applyBootstrap] using congrArg Rpk.SeedServer.id hg
    · simpa [Rpk.applyBootstrap] using congrArg Rpk.SeedServer.host hg

/-- C6 witness: a successful run with two parsed IPs writes two seed
servers; the entry at position 1 has id 1. -/
theorem bootstrap_seed_list_witness :
    (Rpk.applyBootstrap sampleConf 0 { repr := "1.2.3.4" }
        [{ repr := "1.2.3.4" }, { repr := "5.6.7.8" }] 33145).redpanda.seedServers.length = 2
    ∧ ((Rpk.applyBootstrap sampleConf 0 { repr := "1.2.3.4" }
        [{ repr := "1.2.3.4" }, { repr := "5.6.7.8" }] 33145).redpanda.seedServers.get
          ⟨1, by decide⟩).id = Int.ofNat 1 := by
  have h := bootstrap_seed_list samplePi 33145 [] (Except.ok sampleConf)
    { ips := some ["1.2.3.4", "5.6.7.8"], self := some "1.2.3.4", id := some 0 }
    (Rpk.applyBootstrap sampleConf 0 { repr := "1.2.3.4" }
      [{ repr := "1.2.3.4" }, { repr := "5.6.7.8" }] 33145)
    [{ repr := "1.2.3.4" }, { repr := "5.6.7.8" }] rfl rfl
  exact ⟨h.1.trans rfl, (h.2 1 (by decide) (by decide)).1⟩

/-- C7 counterexample: the claim says every successful run writes a
non-negative id.  `--id` is only marked required, never range-checked:
with `--id -3` and a valid `--self` the run succeeds and writes id -3. -/
theorem negative_id_bootstrap_succeeds :
    (Rpk.bootstrapCommand samplePi 33145 [] (Except.ok sampleConf)
        { ips := none, self := some "1.2.3.4", id := some (-3) }).2 = Rpk.RunResult.ok
    ∧ ((Rpk.bootstrapCommand samplePi 33145 [] (Except.ok sampleConf)
        { ips := none, self := some "1.2.3.4", id := some (-3) }).1.map
          fun c => c.redpanda.id) = [(-3 : Int)]
    ∧ ¬(0 : Int) ≤ (-3 : Int) :=
  ⟨rfl, rfl, by decide⟩

/-- C7 amended: `--id` is required — an invocation without it fails
before the run body executes and writes nothing — and every successful
run writes exactly the supplied id to the configuration, with no
non-negativity check. -/
theorem bootstrap_id_required_and_written_verbatim :
    (∀ (pi : String → Option Rpk.IP) (port : Int) (addrs : List Rpk.InterfaceAddr)
        (ro : Except String Rpk.Config) (ips : Option (List String)) (self : Option String),
        Rpk.bootstrapCommand pi port addrs ro { ips := ips, self := self, id := none }
          = ([], Rpk.RunResult.err "required flag(s) \x22id\x22 not set"))
    ∧ ∀ (pi : String → Option Rpk.IP) (port : Int) (addrs : List Rpk.InterfaceAddr)
        (ro : Except String Rpk.Config) (inv : Rpk.Invocation) (id : Int) (w : Rpk.Config),
        inv.id = some id →
        Rpk.bootstrapCommand pi port addrs ro inv = ([w], Rpk.RunResult.ok) →
        w.redpanda.id = id := by
  constructor
  · intro pi port addrs ro ips self
    rfl
  · intro pi port addrs ro inv id w hid hrun
    simp only [Rpk.bootstrapCommand, hid] at hrun
    obtain ⟨conf, parsed, ownIp, hro, hparse, hres, hw⟩ := bootstrapRun_ok_inv hrun
    injection hw with hw1 _
    subst hw1
    rfl

/-- C7 amended witness: an invocation without `--id` errors and writes
nothing; a successful run with `--id 7` writes id 7. -/
theorem bootstrap_id_required_witness :
    Rpk.bootstrapCommand samplePi 33145 [] (Except.ok sampleConf)
        { ips := none, self := some "1.2.3.4", id := none }
      = ([], Rpk.RunResult.err "required flag(s) \x22id\x22 not set")
    ∧ (Rpk.applyBootstrap sampleConf 7 { repr := "1.2.3.4" } [] 33145).redpanda.id = 7 :=
  ⟨bootstrap_id_required_and_written_verbatim.1 samplePi 33145 [] (Except.ok sampleConf)
      none (some "1.2.3.4"),
   bootstrap_id_required_and_written_verbatim.2 samplePi 33145 [] (Except.ok sampleConf)
      { ips := none, self := some "1.2.3.4", id := some 7 } 7
      (Rpk.applyBootstrap sampleConf 7 { repr := "1.2.3.4" } [] 33145) rfl rfl⟩

/-- When `--self` is non-empty, address resolution never consults the
machine's interface addresses. -/
theorem resolveSelf_addrs_indep (pi : String → Option Rpk.IP) (self : String)
    (h : self ≠ "") (a1 a2 : List Rpk.InterfaceAddr) :
    Rpk.resolveSelf pi a1 self = Rpk.resolveSelf pi a2 self := by
  unfold Rpk.resolveSelf
  rw [if_pos h, if_pos h]

/-- C8: when `--self` is supplied, the whole run is independent of the
machine's interface addresses (`ownIP` is never consulted); when the
supplied `--self` parses, a written configuration carries that IP's
string form in all three address fields; and when it does not parse, the
run fails with the `is not a valid IP` validation error (given that the
earlier stages — required id, config load, `--ips` parsing — passed). -/
theorem bootstrap_self_bypasses_interfaces (pi : String → Option Rpk.IP) (port : Int)
    (ro : Except String Rpk.Config) (inv : Rpk.Invocation)
    (addrs1 addrs2 : List Rpk.InterfaceAddr)
    (hself : inv.self.getD "" ≠ "") :
    Rpk.bootstrapCommand pi port addrs1 ro inv = Rpk.bootstrapCommand pi port addrs2 ro inv
    ∧ (∀ (ip : Rpk.IP) (w : Rpk.Config), pi (inv.self.getD "") = some ip →
        (Rpk.bootstrapCommand pi port addrs1 ro inv).1 = [w] →
        w.redpanda.rpcServer.address = ip.repr
        ∧ w.redpanda.kafkaApi.address = ip.repr
        ∧ w.redpanda.adminApi.address = ip.repr)
    ∧ ∀ (id : Int) (conf : Rpk.Config) (parsed : List Rpk.IP),
        inv.id = some id → ro = Except.ok conf →
        Rpk.parseIPs pi (inv.ips.getD []) = Except.ok parsed →
        pi (inv.self.getD "") = none →
        Rpk.bootstrapCommand pi port addrs1 ro inv
          = ([], Rpk.RunResult.err (inv.self.getD "" ++ " is not a valid IP.")) := by
  refine ⟨?_, ?_, ?_⟩
  · cases hid : inv.id with
    | none => simp [Rpk.bootstrapCommand, hid]
    | some id =>
      simp only [Rpk.bootstrapCommand, hid]
      unfold Rpk.bootstrapRun
      rw [resolveSelf_addrs_indep pi (inv.self.getD "") hself addrs1 addrs2]
  · intro ip w hpi hw1
    cases hid : inv.id with
    | none => simp [Rpk.bootstrapCommand, hid] at hw1
    | some id =>
      simp only [Rpk.bootstrapCommand, hid] at hw1
      rcases bootstrapRun_shape pi port addrs1 ro (inv.ips.getD []) (inv.self.getD "") id
        with h1 | h2
      · rw [h1] at hw1
        cases hw1
      · have hrun : Rpk.bootstrapRun pi port addrs1 ro (inv.ips.getD []) (inv.self.getD "") id
            = ([w], Rpk.RunResult.ok) := by
          rw [← hw1, ← h2]
        obtain ⟨conf, parsed, ownIp, hro, hparse, hres, hw⟩ := bootstrapRun_ok_inv hrun
        unfold Rpk.resolveSelf at hres
        rw [if_pos hself, hpi] at hres
        injection hres with hip
        subst hip
        injection hw with hw2 _
        subst hw2
        exact ⟨rfl, rfl, rfl⟩
  · intro id conf parsed hid hro hparse hpi
    simp [Rpk.bootstrapCommand, hid, Rpk.bootstrapRun, Rpk.resolveSelf, hro, hparse, hpi, hself]

/-- C8 witness: with `--self 1.2.3.4` the run ignores the interface list,
the written configuration carries 1.2.3.4 in all three address fields,
and with an unparsable `--self` the run fails with the validation
error. -/
theorem bootstrap_self_bypasses_interfaces_witness :
    Rpk.bootstrapCommand samplePi 33145 [] (Except.ok sampleConf)
        { ips := some ["5.6.7.8"], self := some "1.2.3.4", id := some 2 }
      = Rpk.bootstrapCommand samplePi 33145
          [Rpk.InterfaceAddr.ipNet { repr := "9.9.9.9" } false] (Except.ok sampleConf)
          { ips := some ["5.6.7.8"], self := some "1.2.3.4", id := some 2 }
    ∧ ((Rpk.applyBootstrap sampleConf 2 { repr := "1.2.3.4" }
          [{ repr := "5.6.7.8" }] 33145).redpanda.rpcServer.address = "1.2.3.4"
        ∧ (Rpk.applyBootstrap sampleConf 2 { repr := "1.2.3.4" }
            [{ repr := "5.6.7.8" }] 33145).redpanda.kafkaApi.address = "1.2.3.4"
        ∧ (Rpk.applyBootstrap sampleConf 2 { repr := "1.2.3.4" }
            [{ repr := "5.6.7.8" }] 33145).redpanda.adminApi.address = "1.2.3.4")
    ∧ Rpk.bootstrapCommand samplePi 33145 [] (Except.ok sampleConf)
        { ips := none, self := some "not-an-ip", id := some 2 }
      = ([], Rpk.RunResult.err ("not-an-ip" ++ " is not a valid IP.")) :=
  ⟨(bootstrap_self_bypasses_interfaces samplePi 33145 (Except.ok sampleConf)
      { ips := some ["5.6.7.8"], self := some "1.2.3.4", id := some 2 } []
      [Rpk.InterfaceAddr.ipNet { repr := "9.9.9.9" } false] (by decide)).1,
   (bootstrap_self_bypasses_interfaces samplePi 33145 (Except.ok sampleConf)
      { ips := some ["5.6.7.8"], self := some "1.2.3.4", id := some 2 } []
      [Rpk.InterfaceAddr.ipNet { repr := "9.9.9.9" } false] (by decide)).2.1
     { repr := "1.2.3.4" }
     (Rpk.applyBootstrap sampleConf 2 { repr := "1.2.3.4" } [{ repr := "5.6.7.8" }] 33145)
     rfl rfl,
   (bootstrap_self_bypasses_interfaces samplePi 33145 (Except.ok sampleConf)
      { ips := none, self := some "not-an-ip", id := some 2 } [] [] (by decide)).2.2
     2 sampleConf [] rfl rfl rfl rfl⟩

/-- C9: when `--ips` is omitted but `--self` is supplied and parses, the
run succeeds and the written configuration's seed-server list is empty —
the node is configured as a root node of a new cluster. -/
theorem bootstrap_root_node (pi : String → Option Rpk.IP) (port : Int)
    (addrs : List Rpk.InterfaceAddr) (ro : Except String Rpk.Config)
    (inv : Rpk.Invocation) (id : Int) (conf : Rpk.Config) (ip : Rpk.IP)
    (hid : inv.id = some id) (hips : inv.ips = none) (hself : inv.self.getD "" ≠ "")
    (hro : ro = Except.ok conf) (hpi : pi (inv.self.getD "") = some ip) :
    Rpk.bootstrapCommand pi port addrs ro inv
      = ([Rpk.applyBootstrap conf id ip [] port], Rpk.RunResult.ok)
    ∧ (Rpk.applyBootstrap conf id ip [] port).redpanda.seedServers = [] := by
  constructor
  · simp only [Rpk.bootstrapCommand, hid]
    have hne : ¬((inv.ips.getD []).length = 0 ∧ inv.self.getD "" = "") :=
      fun hc => hself hc.2
    have hparse : Rpk.parseIPs pi (inv.ips.getD []) = Except.ok [] := by
      rw [hips]
      rfl
    have hres : Rpk.resolveSelf pi addrs (inv.self.getD "") = Rpk.OwnIPResult.ok ip := by
      unfold Rpk.resolveSelf
      rw [if_pos hself, hpi]
    exact bootstrapRun_ok_fwd hne hro hparse hres
  · rfl

/-- C9 witness: `--self 1.2.3.4 --id 4` with no `--ips` succeeds and the
written seed list is empty. -/
theorem bootstrap_root_node_witness :
    Rpk.bootstrapCommand samplePi 33145 [] (Except.ok sampleConf)
        { ips := none, self := some "1.2.3.4", id := some 4 }
      = ([Rpk.applyBootstrap sampleConf 4 { repr := "1.2.3.4" } [] 33145], Rpk.RunResult.ok)
    ∧ (Rpk.applyBootstrap sampleConf 4
        { repr := "1.2.3.4" } [] 33145).redpanda.seedServers = [] :=
  bootstrap_root_node samplePi 33145 [] (Except.ok sampleConf)
    { ips := none, self := some "1.2.3.4", id := some 4 } 4 sampleConf { repr := "1.2.3.4" }
    rfl rfl (by decide) rfl rfl

/-- C10: every successful run leaves every configuration field other than
the id, the three address fields and the seed-server list exactly as
loaded (the abstracted `rest` fields and the three ports are preserved),
and assigns the same value — the chosen node IP's string form — to the
RPC, Kafka API and Admin API address fields. -/
theorem bootstrap_frame (pi : String → Option Rpk.IP) (port : Int)
    (addrs : List Rpk.InterfaceAddr) (ro : Except String Rpk.Config)
    (inv : Rpk.Invocation) (conf : Rpk.Config) (w : Rpk.Config)
    (hro : ro = Except.ok conf)
    (hrun : Rpk.bootstrapCommand pi port addrs ro inv = ([w], Rpk.RunResult.ok)) :
    w.rest = conf.rest
    ∧ w.redpanda.rest = conf.redpanda.rest
    ∧ w.redpanda.rpcServer.port = conf.redpanda.rpcServer.port
    ∧ w.redpanda.kafkaApi.port = conf.redpanda.kafkaApi.port
    ∧ w.redpanda.adminApi.port = conf.redpanda.adminApi.port
    ∧ ∃ ip, Rpk.resolveSelf pi addrs (inv.self.getD "") = Rpk.OwnIPResult.ok ip
        ∧ w.redpanda.rpcServer.address = ip.repr
        ∧ w.redpanda.kafkaApi.address = ip.repr
        ∧ w.redpanda.adminApi.address = ip.repr := by
  cases hid : inv.id with
  | none => simp [Rpk.bootstrapCommand, hid] at hrun
  | some id =>
    simp only [Rpk.bootstrapCommand, hid] at hrun
    obtain ⟨conf', parsed, ownIp, hro', hparse, hres, hw⟩ := bootstrapRun_ok_inv hrun
    rw [hro] at hro'
    injection hro' with hcc
    subst hcc
    injection hw with hw1 _
    subst hw1
    exact ⟨rfl, rfl, rfl, rfl, rfl, ownIp, hres, rfl, rfl, rfl⟩

/-- C10 witness: a concrete successful run preserves the abstracted
fields and ports of the loaded configuration and writes 1.2.3.4 into all
three address fields. -/
theorem bootstrap_frame_witness :
    (Rpk.applyBootstrap sampleConf 9 { repr := "1.2.3.4" } [] 33145).rest = sampleConf.rest
    ∧ (Rpk.applyBootstrap sampleConf 9 { repr := "1.2.3.4" } [] 33145).redpanda.rest
      = sampleConf.redpanda.rest
    ∧ (Rpk.applyBootstrap sampleConf 9 { repr := "1.2.3.4" } [] 33145).redpanda.rpcServer.port
      = sampleConf.redpanda.rpcServer.port
    ∧ (Rpk.applyBootstrap sampleConf 9 { repr := "1.2.3.4" } [] 33145).redpanda.kafkaApi.port
      = sampleConf.redpanda.kafkaApi.port
    ∧ (Rpk.applyBootstrap sampleConf 9 { repr := "1.2.3.4" } [] 33145).redpanda.adminApi.port
      = sampleConf.redpanda.adminApi.port
    ∧ ∃ ip, Rpk.resolveSelf samplePi []
          (({ ips := none, self := some "1.2.3.4", id := some 9 } : Rpk.Invocation).self.getD "")
        = Rpk.OwnIPResult.ok ip
        ∧ (Rpk.applyBootstrap sampleConf 9
            { repr := "1.2.3.4" } [] 33145).redpanda.rpcServer.address = ip.repr
        ∧ (Rpk.applyBootstrap sampleConf 9
            { repr := "1.2.3.4" } [] 33145).redpanda.kafkaApi.address = ip.repr
        ∧ (Rpk.applyBootstrap sampleConf 9
            { repr := "1.2.3.4" } [] 33145).redpanda.adminApi.address = ip.repr :=
  bootstrap_frame samplePi 33145 [] (Except.ok sampleConf)
    { ips := none, self := some "1.2.3.4", id := some 9 } sampleConf
    (Rpk.applyBootstrap sampleConf 9 { repr := "1.2.3.4" } [] 33145) rfl rfl
